import Mathlib

/-
Verification of the report-scheduling engine of the enset-health application.

The embedded code is:
  * `Profile.compute_next_report_at` (health/models.py), the schedule policy;
  * the `_run_once` pass of the `send_scheduled_reports` management command
    (health/management/commands/send_scheduled_reports.py), the delivery runner;
  * `ReportScheduleForm.clean` (health/forms.py), the configuration validator.

Dates and times are modelled naively in the single fixed deployment timezone:
`timezone.make_aware`/`timezone.localtime` attach the one process-wide zone, so
datetime comparisons in the scheduler are comparisons of local wall-clock
(year, month, day, time-of-day) tuples, which is what the model orders.
-/

namespace EnsetHealth

/-- Local wall-clock time of day, as Python's `datetime.time`
(microseconds omitted: the scheduler compares at second granularity). -/
structure Time where
  hour : Nat
  minute : Nat
  second : Nat
deriving DecidableEq, Repr

/-- Seconds since midnight. -/
def Time.toSec (t : Time) : Nat := t.hour * 3600 + t.minute * 60 + t.second

/-- A well-formed time of day. -/
def Time.Valid (t : Time) : Prop := t.hour < 24 ∧ t.minute < 60 ∧ t.second < 60

instance (t : Time) : Decidable t.Valid := by
  unfold Time.Valid; infer_instance

/-- Proleptic-Gregorian civil date, as Python's `datetime.date`. -/
structure Date where
  year : Nat
  month : Nat
  day : Nat
deriving DecidableEq, Repr

/-- Gregorian leap-year rule (`calendar.isleap`). -/
def isLeap (y : Nat) : Bool := (y % 4 == 0 && y % 100 != 0) || y % 400 == 0

/-- Number of days of month `m` of year `y`, i.e. `calendar.monthrange(y, m)[1]`
for `1 ≤ m ≤ 12`. -/
def daysInMonth (y m : Nat) : Nat :=
  if m = 2 then (if isLeap y then 29 else 28)
  else if m = 4 ∨ m = 6 ∨ m = 9 ∨ m = 11 then 30
  else 31

/-- A well-formed civil date (what Python's `datetime.date` can hold). -/
def Date.Valid (d : Date) : Prop :=
  1 ≤ d.month ∧ d.month ≤ 12 ∧ 1 ≤ d.day ∧ d.day ≤ daysInMonth d.year d.month

instance (d : Date) : Decidable d.Valid := by
  unfold Date.Valid; infer_instance

/-- The day after `d`, i.e. `d + timedelta(days=1)`. -/
def Date.succDay (d : Date) : Date :=
  if d.day + 1 ≤ daysInMonth d.year d.month then ⟨d.year, d.month, d.day + 1⟩
  else if d.month + 1 ≤ 12 then ⟨d.year, d.month + 1, 1⟩
  else ⟨d.year + 1, 1, 1⟩

/-- Calendar-day addition, `d + timedelta(days=n)`. -/
def Date.addDays (d : Date) : Nat → Date
  | 0 => d
  | n + 1 => (d.addDays n).succDay

/-- Number of leap years in `[0, y)`: multiples of 4 minus multiples of 100
plus multiples of 400 below `y`. -/
def leapsBefore (y : Nat) : Nat := (y + 3) / 4 - (y + 99) / 100 + (y + 399) / 400

/-- Days in all years strictly before year `y` (years counted from 0). -/
def daysBeforeYear (y : Nat) : Nat := 365 * y + leapsBefore y

/-- Days of year `y` falling in months strictly before month `m` (1-based). -/
def daysBeforeMonth (y : Nat) : Nat → Nat
  | 0 => 0
  | m + 1 => if m = 0 then 0 else daysBeforeMonth y m + daysInMonth y m

/-- Linear day number of a civil date (0000-01-01 is day 0). -/
def Date.toDays (d : Date) : Nat :=
  daysBeforeYear d.year + daysBeforeMonth d.year d.month + (d.day - 1)

/-- Python's `date.weekday()`: Monday = 0 … Sunday = 6.  The offset 5 is fixed
by 2000-01-01 (day number 730485, divisible by 7) being a Saturday. -/
def Date.weekday (d : Date) : Nat := (d.toDays + 5) % 7

/-- A local-timezone instant, as the aware `datetime` values the scheduler
builds with `timezone.make_aware` in the one configured zone. -/
structure DateTime where
  date : Date
  time : Time
deriving DecidableEq, Repr

/-- Mixed-radix rank of a date: month < 13 and day < 32, so on well-formed
dates this rank orders exactly as the lexicographic (year, month, day) order,
which is the calendar order Python's `date` comparison implements. -/
def Date.key (d : Date) : Nat := (d.year * 13 + d.month) * 32 + d.day

/-- Rank of an instant; on well-formed data (seconds-of-day < 86400) its order
is the lexicographic (date, time-of-day) order, i.e. Python's aware-`datetime`
comparison within the single deployment timezone. -/
def DateTime.key (dt : DateTime) : Nat := dt.date.key * 86400 + dt.time.toSec

/-- The schedule-relevant columns of `health.models.Profile`, plus
`user_email`: the owning account's `user.email` (which the runner reads as the
recipient fallback; `none` models a missing/empty address). -/
structure Profile where
  report_schedule_enabled : Bool
  report_frequency : String
  report_time : Option Time
  report_day_of_week : Option String
  report_day_of_month : Option Nat
  report_recipient_email : Option String
  report_range_days : Nat
  next_report_at : Option DateTime
  last_report_sent_at : Option DateTime
  user_email : Option String
deriving DecidableEq, Repr

/-- The `weekday_index` lookup of the weekly branch: `dict.get` on the
seven lowercase day names. -/
def weekdayIndex (s : String) : Option Nat :=
  if s = "monday" then some 0
  else if s = "tuesday" then some 1
  else if s = "wednesday" then some 2
  else if s = "thursday" then some 3
  else if s = "friday" then some 4
  else if s = "saturday" then some 5
  else if s = "sunday" then some 6
  else none

/-- Python's `a or b` for an optional integer `a`: both `None` and `0` are
falsy and select `b`. -/
def pyOrNat (a : Option Nat) (b : Nat) : Nat :=
  match a with
  | none => b
  | some n => if n = 0 then b else n

/-- Python truthiness of an optional string: `None` and `""` are falsy. -/
def truthyStr (a : Option String) : Option String :=
  match a with
  | none => none
  | some s => if s = "" then none else some s

/-- Daily branch of `compute_next_report_at`: candidate is today at the
configured time; when that instant is `<= now` it moves to tomorrow. -/
def dailyCandidate (t : Time) (now : DateTime) : DateTime :=
  let candidate : DateTime := ⟨now.date, t⟩
  if candidate.key ≤ now.key then ⟨now.date.addDays 1, t⟩ else candidate

/-- Number of days from today to the weekly branch's target weekday: the
target index is `weekday_index.get(report_day_of_week, today.weekday())` and
the distance is `(target_idx - today.weekday()) % 7` with Python's
nonnegative `%`. -/
def weeklyDaysAhead (dow : Option String) (today : Date) : Nat :=
  let targetIdx : Nat :=
    match dow with
    | none => today.weekday
    | some s => (weekdayIndex s).getD today.weekday
  (((targetIdx : Int) - (today.weekday : Int)) % 7).toNat

/-- Weekly branch of `compute_next_report_at`: candidate date is
`today + ((target - today.weekday()) % 7)` days at the configured time; when
the candidate instant is `<= now` it moves 7 further days ahead. -/
def weeklyCandidate (dow : Option String) (t : Time) (now : DateTime) : DateTime :=
  let candidateDate := now.date.addDays (weeklyDaysAhead dow now.date)
  let candidate : DateTime := ⟨candidateDate, t⟩
  if candidate.key ≤ now.key then ⟨candidateDate.addDays 7, t⟩ else candidate

/-- The `_month_candidate` closure of the monthly branch: the requested day
clamped to the target month's length (`min(day_of_month, monthrange(...)[1])`),
at the configured time. -/
def monthCandidate (dayOfMonth : Nat) (t : Time) (year month : Nat) : DateTime :=
  ⟨⟨year, month, min dayOfMonth (daysInMonth year month)⟩, t⟩

/-- Monthly (and fall-through) branch of `compute_next_report_at`: the target
day is `report_day_of_month or today.day`; the candidate sits in the current
month, and when its instant is `<= now` it moves to the next month (December
wraps to January of the following year), re-clamping the day. -/
def monthlyCandidate (dom : Option Nat) (t : Time) (now : DateTime) : DateTime :=
  let today := now.date
  let dayOfMonth := pyOrNat dom today.day
  let candidate := monthCandidate dayOfMonth t today.year today.month
  if candidate.key ≤ now.key then
    monthCandidate dayOfMonth t
      (today.year + (if today.month = 12 then 1 else 0))
      (if today.month = 12 then 1 else today.month + 1)
  else candidate

/-- Embedding of `Profile.compute_next_report_at` (health/models.py).  `now` is
the reference instant (the method's default `timezone.localtime()` is passed
explicitly by the runner and modelled as an explicit argument).  The method
assigns `self.next_report_at` and returns the computed value, so the embedding
returns the updated profile together with the return value.  The guard is
Python's `if not self.report_schedule_enabled or not self.report_time`; the
frequency dispatch sends `"daily"` and `"weekly"` to their branches and
everything else to the `else:  # monthly` branch. -/
def computeNextReportAt (p : Profile) (now : DateTime) : Profile × Option DateTime :=
  match p.report_schedule_enabled, p.report_time with
  | false, _ => ({ p with next_report_at := none }, none)
  | true, none => ({ p with next_report_at := none }, none)
  | true, some t =>
    let candidate :=
      if p.report_frequency = "daily" then dailyCandidate t now
      else if p.report_frequency = "weekly" then weeklyCandidate p.report_day_of_week t now
      else monthlyCandidate p.report_day_of_month t now
    ({ p with next_report_at := some candidate }, some candidate)

/-- Recipient resolution of the runner:
`recipient = profile.report_recipient_email or profile.user.email` followed by
the `if not recipient` skip; `none` means no truthy address was found. -/
def resolveRecipient (p : Profile) : Option String :=
  match truthyStr p.report_recipient_email with
  | some e => some e
  | none => truthyStr p.user_email

/-- One profile's treatment inside the `_run_once` loop of
`send_scheduled_reports` (management command).  `deliver p = true` models
`send_report_email` returning normally and `false` models it raising; the
`except` clause logs and counts a skip without touching the profile.  The
result is the profile's state after the iteration together with its
contribution to the `sent` and `skipped` counters.  Profiles with
`report_schedule_enabled = false` are excluded by the queryset filter, hence
left untouched and not counted. -/
def stepProfile (deliver : Profile → Bool) (dryRun : Bool) (now : DateTime)
    (p : Profile) : Profile × Nat × Nat :=
  if p.report_schedule_enabled = false then (p, 0, 0)
  else
    match p.next_report_at with
    | none => (p, 0, 1)
    | some nextAt =>
      if now.key < nextAt.key then (p, 0, 1)
      else
        match resolveRecipient p with
        | none => (p, 0, 1)
        | some _ =>
          if dryRun then (p, 0, 0)
          else if deliver p then
            ((computeNextReportAt { p with last_report_sent_at := some now } now).1, 1, 0)
          else (p, 0, 1)

/-- Embedding of one `_run_once` pass over the whole store: the loop body
touches only the current profile, so the pass is the per-profile step mapped
over the profile list, with `sent` and `skipped` the sums of the per-profile
contributions. -/
def runOnce (deliver : Profile → Bool) (dryRun : Bool) (now : DateTime)
    (profiles : List Profile) : List Profile × Nat × Nat :=
  (profiles.map fun p => (stepProfile deliver dryRun now p).1,
   (profiles.map fun p => (stepProfile deliver dryRun now p).2.1).sum,
   (profiles.map fun p => (stepProfile deliver dryRun now p).2.2).sum)

/-- The submitted values `ReportScheduleForm.clean` reads from `cleaned_data`
after field-level cleaning (health/forms.py). -/
structure SubmittedSchedule where
  report_schedule_enabled : Bool
  report_recipient_email : Option String
  report_frequency : String
  report_day_of_week : Option String
  report_day_of_month : Option Nat
  report_time : Option Time
  report_range_days : Option Nat
deriving DecidableEq, Repr

/-- Embedding of `ReportScheduleForm.clean` (health/forms.py): returns the
cleaned data together with the list of fields given an error by `add_error`.
`userEmail` is `self.instance.user.email`.  A disabled submission returns
early, clearing both day selectors; an enabled one resolves the recipient
fallback, requires a send time, checks the 7/30/90 range, and normalises the
day selectors per frequency (unrecognised frequencies clear both). -/
def cleanSchedule (userEmail : Option String) (s0 : SubmittedSchedule) :
    SubmittedSchedule × List String :=
  if s0.report_schedule_enabled = false then
    ({ s0 with report_day_of_week := none, report_day_of_month := none }, [])
  else
    let recPair :=
      match truthyStr s0.report_recipient_email with
      | some _ => (s0, ([] : List String))
      | none =>
        match truthyStr userEmail with
        | some fallback => ({ s0 with report_recipient_email := some fallback }, [])
        | none => (s0, ["report_recipient_email"])
    let s1 := recPair.1
    let errs1 := recPair.2
    let errs2 := errs1 ++ (if s1.report_time = none then ["report_time"] else [])
    let errs3 :=
      match s1.report_range_days with
      | some n => if n = 7 ∨ n = 30 ∨ n = 90 then errs2 else errs2 ++ ["report_range_days"]
      | none => errs2 ++ ["report_range_days"]
    if s1.report_frequency = "weekly" then
      ({ s1 with report_day_of_month := none },
       errs3 ++ (if truthyStr s1.report_day_of_week = none then ["report_day_of_week"] else []))
    else if s1.report_frequency = "monthly" then
      ({ s1 with report_day_of_week := none },
       errs3 ++
         (match s1.report_day_of_month with
          | none => ["report_day_of_month"]
          | some d => if d < 1 ∨ 28 < d then ["report_day_of_month"] else []))
    else
      ({ s1 with report_day_of_week := none, report_day_of_month := none }, errs3)

/-- Modelled from the spec: the configuration-update operation of §4.3.  The
view that binds `ReportScheduleForm` to a profile and persists it is not among
the sources (only the form and the policy are); per the spec the operation must
(a) validate — the form's `clean`, embedded above from the source —, reject the
whole update when any field error was produced, (b) apply the normalised
cleaned data, (c) recompute the next due instant via the policy at the current
instant, and (d) persist atomically. -/
def updateSchedule (now : DateTime) (userEmail : Option String) (p : Profile)
    (s : SubmittedSchedule) : Option Profile :=
  let cleaned := cleanSchedule userEmail s
  if cleaned.2 = [] then
    some (computeNextReportAt
      { p with
        report_schedule_enabled := cleaned.1.report_schedule_enabled,
        report_recipient_email := cleaned.1.report_recipient_email,
        report_frequency := cleaned.1.report_frequency,
        report_day_of_week := cleaned.1.report_day_of_week,
        report_day_of_month := cleaned.1.report_day_of_month,
        report_time := cleaned.1.report_time,
        report_range_days := cleaned.1.report_range_days.getD p.report_range_days }
      now).1
  else none

end EnsetHealth

namespace EnsetHealth

/-! Basic facts about the calendar model. -/

lemma daysInMonth_pos (y m : Nat) : 1 ≤ daysInMonth y m := by
  unfold daysInMonth
  split_ifs <;> omega

lemma daysInMonth_le (y m : Nat) : daysInMonth y m ≤ 31 := by
  unfold daysInMonth
  split_ifs <;> omega

lemma Time.toSec_lt {t : Time} (h : t.Valid) : t.toSec < 86400 := by
  obtain ⟨h1, h2, h3⟩ := h
  unfold Time.toSec
  omega

lemma Date.succDay_valid {d : Date} (h : d.Valid) : d.succDay.Valid := by
  obtain ⟨h1, h2, h3, h4⟩ := h
  unfold Date.succDay Date.Valid
  split_ifs with g1 g2 <;> dsimp only
  · exact ⟨h1, h2, by omega, g1⟩
  · exact ⟨by omega, g2, le_refl 1, daysInMonth_pos _ _⟩
  · exact ⟨by omega, by omega, le_refl 1, daysInMonth_pos _ _⟩

lemma Date.succDay_key_lt {d : Date} (h : d.Valid) : d.key < d.succDay.key := by
  obtain ⟨h1, h2, h3, h4⟩ := h
  have hle := daysInMonth_le d.year d.month
  unfold Date.succDay Date.key
  split_ifs with g1 g2 <;> dsimp only <;> omega

lemma Date.addDays_valid {d : Date} (h : d.Valid) (n : Nat) : (d.addDays n).Valid := by
  induction n with
  | zero => exact h
  | succ n ih => exact Date.succDay_valid ih

lemma Date.addDays_key_le {d : Date} (h : d.Valid) (n : Nat) : d.key ≤ (d.addDays n).key := by
  induction n with
  | zero => exact le_refl _
  | succ n ih =>
      exact le_trans ih (le_of_lt (Date.succDay_key_lt (Date.addDays_valid h n)))

lemma Date.addDays_key_lt {d : Date} (h : d.Valid) {n : Nat} (hn : 0 < n) :
    d.key < (d.addDays n).key := by
  cases n with
  | zero => omega
  | succ n =>
      exact lt_of_le_of_lt (Date.addDays_key_le h n)
        (Date.succDay_key_lt (Date.addDays_valid h n))

lemma DateTime.key_lt_of_date_lt {a b : DateTime} (h : a.date.key < b.date.key)
    (ht : a.time.Valid) : a.key < b.key := by
  have h86 := Time.toSec_lt ht
  unfold DateTime.key
  omega

lemma Date.addDays_addDays_key_lt {d : Date} (h : d.Valid) (k : Nat) {n : Nat}
    (hn : 0 < n) : d.key < ((d.addDays k).addDays n).key :=
  lt_of_le_of_lt (Date.addDays_key_le h k)
    (Date.addDays_key_lt (Date.addDays_valid h k) hn)

lemma DateTime.mk_key_lt (da db : Date) (ta tb : Time) (h : da.key < db.key)
    (ht : ta.Valid) : DateTime.key ⟨da, ta⟩ < DateTime.key ⟨db, tb⟩ := by
  have h86 := Time.toSec_lt ht
  unfold DateTime.key
  dsimp only
  omega

/-! Forward progress of the three frequency branches. -/

lemma dailyCandidate_key_lt (t : Time) {now : DateTime} (hd : now.date.Valid)
    (ht : now.time.Valid) : now.key < (dailyCandidate t now).key := by
  unfold dailyCandidate
  dsimp only
  split_ifs with g
  · exact DateTime.key_lt_of_date_lt (Date.addDays_key_lt hd (by omega)) ht
  · omega

lemma weeklyCandidate_key_lt (dow : Option String) (t : Time) {now : DateTime}
    (hd : now.date.Valid) (ht : now.time.Valid) :
    now.key < (weeklyCandidate dow t now).key := by
  unfold weeklyCandidate
  dsimp only
  generalize weeklyDaysAhead dow now.date = K
  split_ifs with g
  · have hlt : now.date.key < ((now.date.addDays K).addDays 7).key :=
      Date.addDays_addDays_key_lt hd K (by omega)
    exact DateTime.mk_key_lt now.date ((now.date.addDays K).addDays 7) now.time t hlt ht
  · omega

lemma monthlyCandidate_key_lt (dom : Option Nat) (t : Time) {now : DateTime}
    (hd : now.date.Valid) (ht : now.time.Valid) :
    now.key < (monthlyCandidate dom t now).key := by
  obtain ⟨h1, h2, h3, h4⟩ := hd
  have hle := daysInMonth_le now.date.year now.date.month
  unfold monthlyCandidate monthCandidate
  dsimp only
  split_ifs with g g12 <;>
    first
      | (refine DateTime.key_lt_of_date_lt ?_ ht
         unfold Date.key
         dsimp only
         omega)
      | omega

end EnsetHealth

namespace EnsetHealth

/-! Structure of the policy's result. -/

lemma computeNext_fst (p : Profile) (now : DateTime) :
    (computeNextReportAt p now).1 =
      { p with next_report_at := (computeNextReportAt p now).2 } := by
  unfold computeNextReportAt
  split <;> rfl

lemma computeNext_none_iff (p : Profile) (now : DateTime) :
    (computeNextReportAt p now).2 = none ↔
      (p.report_schedule_enabled = false ∨ p.report_time = none) := by
  unfold computeNextReportAt
  split <;> simp_all

lemma computeNext_forward {p : Profile} {now : DateTime} (hd : now.date.Valid)
    (ht : now.time.Valid) {t : DateTime}
    (h : (computeNextReportAt p now).2 = some t) : now.key < t.key := by
  unfold computeNextReportAt at h
  split at h
  · exact absurd h (by simp)
  · exact absurd h (by simp)
  · rw [Option.some_inj] at h
    subst h
    split_ifs
    · exact dailyCandidate_key_lt _ hd ht
    · exact weeklyCandidate_key_lt _ _ hd ht
    · exact monthlyCandidate_key_lt _ _ hd ht

end EnsetHealth

namespace EnsetHealth

/-! Behaviour of one runner iteration. -/

lemma stepProfile_cases (d : Profile → Bool) (dry : Bool) (now : DateTime)
    (p : Profile) :
    stepProfile d dry now p = (p, 0, 0) ∨ stepProfile d dry now p = (p, 0, 1) ∨
    (stepProfile d dry now p =
        ((computeNextReportAt { p with last_report_sent_at := some now } now).1, 1, 0) ∧
      p.report_schedule_enabled = true) := by
  by_cases he : p.report_schedule_enabled = false
  · unfold stepProfile
    rw [if_pos he]
    exact Or.inl rfl
  · have he2 : p.report_schedule_enabled = true := by
      revert he
      cases p.report_schedule_enabled <;> simp
    unfold stepProfile
    rw [if_neg he]
    split
    · exact Or.inr (Or.inl rfl)
    · split
      · exact Or.inr (Or.inl rfl)
      · split
        · exact Or.inr (Or.inl rfl)
        · split
          · exact Or.inl rfl
          · split
            · exact Or.inr (Or.inr ⟨rfl, he2⟩)
            · exact Or.inr (Or.inl rfl)

lemma stepProfile_sent_zero_of_not_due (d : Profile → Bool) (dry : Bool)
    (now : DateTime) (q : Profile)
    (h : ∀ t, q.next_report_at = some t → now.key < t.key) :
    (stepProfile d dry now q).2.1 = 0 := by
  unfold stepProfile
  split
  · rfl
  · split
    · rfl
    · rename_i nextAt hq
      split
      · rfl
      · rename_i h2
        exact absurd (h nextAt hq) h2

lemma computeNext_fst_next (p : Profile) (now : DateTime) :
    (computeNextReportAt p now).1.next_report_at = (computeNextReportAt p now).2 := by
  rw [computeNext_fst]

lemma stepProfile_twice (d : Profile → Bool) {now : DateTime} (hd : now.date.Valid)
    (ht : now.time.Valid) (p : Profile) :
    (stepProfile d false now p).2.1 +
      (stepProfile d false now (stepProfile d false now p).1).2.1 ≤ 1 := by
  rcases stepProfile_cases d false now p with h | h | ⟨h, hen⟩
  · rw [h]
    simp [h]
  · rw [h]
    simp [h]
  · rw [h]
    have hzero :
        (stepProfile d false now
          (computeNextReportAt { p with last_report_sent_at := some now } now).1).2.1 = 0 := by
      refine stepProfile_sent_zero_of_not_due d false now _ ?_
      intro t htn
      rw [computeNext_fst_next] at htn
      exact computeNext_forward hd ht htn
    simp [hzero]

lemma runOnce_fst_getElem (d : Profile → Bool) (dry : Bool) (now : DateTime)
    (l : List Profile) (i : Nat) (p : Profile) (hp : l[i]? = some p) :
    (runOnce d dry now l).1[i]? = some (stepProfile d dry now p).1 := by
  simp [runOnce, List.getElem?_map, hp]

end EnsetHealth

namespace EnsetHealth

/-! Claim theorems. -/

/-- C2: for every configuration and well-formed `now`, the next-instant
computation returns null exactly when the schedule is disabled or the
time-of-day is null; otherwise the instant it returns is the value stored in
`next_report_at` and is strictly greater than `now` — never equal, never in
the past. -/
theorem scheduling_c2 (p : Profile) (now : DateTime)
    (hd : now.date.Valid) (ht : now.time.Valid) :
    ((computeNextReportAt p now).2 = none ↔
      (p.report_schedule_enabled = false ∨ p.report_time = none)) ∧
    (computeNextReportAt p now).1.next_report_at = (computeNextReportAt p now).2 ∧
    ∀ t, (computeNextReportAt p now).2 = some t → now.key < t.key :=
  ⟨computeNext_none_iff p now, computeNext_fst_next p now,
    fun _ htn => computeNext_forward hd ht htn⟩

/-- Witness for C2: a daily schedule at 08:00 evaluated at 2024-03-01 09:00
yields 2024-03-02 08:00, strictly after `now`. -/
theorem scheduling_c2_witness :
    (⟨⟨2024, 3, 1⟩, ⟨9, 0, 0⟩⟩ : DateTime).key <
      (⟨⟨2024, 3, 2⟩, ⟨8, 0, 0⟩⟩ : DateTime).key :=
  (scheduling_c2
      { report_schedule_enabled := true, report_frequency := "daily",
        report_time := some ⟨8, 0, 0⟩, report_day_of_week := none,
        report_day_of_month := none, report_recipient_email := none,
        report_range_days := 30, next_report_at := none,
        last_report_sent_at := none, user_email := none }
      ⟨⟨2024, 3, 1⟩, ⟨9, 0, 0⟩⟩ (by decide) (by decide)).2.2
    ⟨⟨2024, 3, 2⟩, ⟨8, 0, 0⟩⟩ (by decide)

/-- C3: for an enabled daily configuration, the next instant is today at the
configured time when that instant is strictly after `now`, and tomorrow at the
configured time otherwise — an exactly-equal instant counts as already
passed. -/
theorem scheduling_c3 (p : Profile) (now : DateTime) (T : Time)
    (hen : p.report_schedule_enabled = true) (htm : p.report_time = some T)
    (hf : p.report_frequency = "daily") :
    ((⟨now.date, T⟩ : DateTime).key ≤ now.key →
      (computeNextReportAt p now).2 = some ⟨now.date.addDays 1, T⟩) ∧
    (now.key < (⟨now.date, T⟩ : DateTime).key →
      (computeNextReportAt p now).2 = some ⟨now.date, T⟩) := by
  have hmain : (computeNextReportAt p now).2 = some (dailyCandidate T now) := by
    simp only [computeNextReportAt, hen, htm, hf]
    simp
  constructor <;> intro hcmp
  · rw [hmain]
    unfold dailyCandidate
    dsimp only
    rw [if_pos hcmp]
  · rw [hmain]
    unfold dailyCandidate
    dsimp only
    rw [if_neg (by omega)]

/-- Witness for C3: with time-of-day 08:00, `now` = 2024-03-01T08:00:00 yields
2024-03-02 08:00 and `now` = 2024-03-01T07:59:59 yields 2024-03-01 08:00. -/
theorem scheduling_c3_witness :
    (computeNextReportAt
        { report_schedule_enabled := true, report_frequency := "daily",
          report_time := some ⟨8, 0, 0⟩, report_day_of_week := none,
          report_day_of_month := none, report_recipient_email := none,
          report_range_days := 30, next_report_at := none,
          last_report_sent_at := none, user_email := none }
        ⟨⟨2024, 3, 1⟩, ⟨8, 0, 0⟩⟩).2 = some ⟨⟨2024, 3, 2⟩, ⟨8, 0, 0⟩⟩ ∧
    (computeNextReportAt
        { report_schedule_enabled := true, report_frequency := "daily",
          report_time := some ⟨8, 0, 0⟩, report_day_of_week := none,
          report_day_of_month := none, report_recipient_email := none,
          report_range_days := 30, next_report_at := none,
          last_report_sent_at := none, user_email := none }
        ⟨⟨2024, 3, 1⟩, ⟨7, 59, 59⟩⟩).2 = some ⟨⟨2024, 3, 1⟩, ⟨8, 0, 0⟩⟩ :=
  ⟨((scheduling_c3 _ ⟨⟨2024, 3, 1⟩, ⟨8, 0, 0⟩⟩ ⟨8, 0, 0⟩ rfl rfl rfl).1
      (by decide)).trans (by decide),
   ((scheduling_c3 _ ⟨⟨2024, 3, 1⟩, ⟨7, 59, 59⟩⟩ ⟨8, 0, 0⟩ rfl rfl rfl).2
      (by decide)).trans (by decide)⟩

/-- C4: for an enabled weekly configuration with a recognised day name, the
candidate date is today plus `(target_weekday - today.weekday()) mod 7` days
at the configured time, and when that instant is `<= now` the result is
exactly 7 days later. -/
theorem scheduling_c4 (p : Profile) (now : DateTime) (T : Time) (s : String)
    (target : Nat) (hen : p.report_schedule_enabled = true)
    (htm : p.report_time = some T) (hf : p.report_frequency = "weekly")
    (hdow : p.report_day_of_week = some s) (hidx : weekdayIndex s = some target) :
    weeklyDaysAhead (some s) now.date =
      (((target : Int) - (now.date.weekday : Int)) % 7).toNat ∧
    ((⟨now.date.addDays (weeklyDaysAhead (some s) now.date), T⟩ : DateTime).key ≤ now.key →
      (computeNextReportAt p now).2 =
        some ⟨(now.date.addDays (weeklyDaysAhead (some s) now.date)).addDays 7, T⟩) ∧
    (now.key < (⟨now.date.addDays (weeklyDaysAhead (some s) now.date), T⟩ : DateTime).key →
      (computeNextReportAt p now).2 =
        some ⟨now.date.addDays (weeklyDaysAhead (some s) now.date), T⟩) := by
  have hmain : (computeNextReportAt p now).2 = some (weeklyCandidate (some s) T now) := by
    simp only [computeNextReportAt, hen, htm, hf, hdow]
    simp
  refine ⟨?_, ?_, ?_⟩
  · unfold weeklyDaysAhead
    dsimp only
    rw [hidx, Option.getD_some]
  · intro hcmp
    rw [hmain]
    unfold weeklyCandidate
    dsimp only
    rw [if_pos hcmp]
  · intro hcmp
    rw [hmain]
    unfold weeklyCandidate
    dsimp only
    rw [if_neg (by omega)]

/-- Witness for C4: a Monday/09:00 weekly schedule evaluated on Monday
2024-03-04 at 10:00 yields the following Monday 2024-03-11 at 09:00, not the
same day. -/
theorem scheduling_c4_witness :
    (computeNextReportAt
        { report_schedule_enabled := true, report_frequency := "weekly",
          report_time := some ⟨9, 0, 0⟩, report_day_of_week := some "monday",
          report_day_of_month := none, report_recipient_email := none,
          report_range_days := 30, next_report_at := none,
          last_report_sent_at := none, user_email := none }
        ⟨⟨2024, 3, 4⟩, ⟨10, 0, 0⟩⟩).2 = some ⟨⟨2024, 3, 11⟩, ⟨9, 0, 0⟩⟩ :=
  ((scheduling_c4 _ ⟨⟨2024, 3, 4⟩, ⟨10, 0, 0⟩⟩ ⟨9, 0, 0⟩ "monday" 0
      rfl rfl rfl rfl rfl).2.1 (by decide)).trans (by decide)

/-- C5: for an enabled monthly configuration with a nonzero day-of-month, the
candidate day is the configured day clamped to the length of the current
month at the configured time; when that instant is `<= now` the computation
moves to the next month — December wrapping to January of the next year —
re-applying the clamp. -/
theorem scheduling_c5 (p : Profile) (now : DateTime) (T : Time) (dm : Nat)
    (hen : p.report_schedule_enabled = true) (htm : p.report_time = some T)
    (hf : p.report_frequency = "monthly") (hdom : p.report_day_of_month = some dm)
    (hdm : dm ≠ 0) :
    ((monthCandidate dm T now.date.year now.date.month).key ≤ now.key →
      (computeNextReportAt p now).2 =
        some (monthCandidate dm T
          (now.date.year + (if now.date.month = 12 then 1 else 0))
          (if now.date.month = 12 then 1 else now.date.month + 1))) ∧
    (now.key < (monthCandidate dm T now.date.year now.date.month).key →
      (computeNextReportAt p now).2 =
        some (monthCandidate dm T now.date.year now.date.month)) := by
  have hmain : (computeNextReportAt p now).2 = some (monthlyCandidate (some dm) T now) := by
    simp only [computeNextReportAt, hen, htm, hf, hdom]
    simp
  have hpy : pyOrNat (some dm) now.date.day = dm := by
    unfold pyOrNat
    dsimp only
    rw [if_neg hdm]
  constructor <;> intro hcmp <;> rw [hmain] <;> unfold monthlyCandidate <;>
    dsimp only <;> rw [hpy]
  · rw [if_pos hcmp]
  · rw [if_neg (by omega)]

/-- Witness for C5: day-of-month 28 at 00:00 evaluated on 2024-02-10 yields
February 28; evaluated at 2024-02-28T00:00:00 (already due) it rolls to
March 28. -/
theorem scheduling_c5_witness :
    (computeNextReportAt
        { report_schedule_enabled := true, report_frequency := "monthly",
          report_time := some ⟨0, 0, 0⟩, report_day_of_week := none,
          report_day_of_month := some 28, report_recipient_email := none,
          report_range_days := 30, next_report_at := none,
          last_report_sent_at := none, user_email := none }
        ⟨⟨2024, 2, 10⟩, ⟨0, 0, 0⟩⟩).2 = some ⟨⟨2024, 2, 28⟩, ⟨0, 0, 0⟩⟩ ∧
    (computeNextReportAt
        { report_schedule_enabled := true, report_frequency := "monthly",
          report_time := some ⟨0, 0, 0⟩, report_day_of_week := none,
          report_day_of_month := some 28, report_recipient_email := none,
          report_range_days := 30, next_report_at := none,
          last_report_sent_at := none, user_email := none }
        ⟨⟨2024, 2, 28⟩, ⟨0, 0, 0⟩⟩).2 = some ⟨⟨2024, 3, 28⟩, ⟨0, 0, 0⟩⟩ :=
  ⟨((scheduling_c5 _ ⟨⟨2024, 2, 10⟩, ⟨0, 0, 0⟩⟩ ⟨0, 0, 0⟩ 28
      rfl rfl rfl rfl (by decide)).2 (by decide)).trans (by decide),
   ((scheduling_c5 _ ⟨⟨2024, 2, 28⟩, ⟨0, 0, 0⟩⟩ ⟨0, 0, 0⟩ 28
      rfl rfl rfl rfl (by decide)).1 (by decide)).trans (by decide)⟩

/-- C10: for an enabled schedule whose required day selector is absent the
computation still returns a value (it neither returns null nor fails): weekly
with a null day-of-week targets today's weekday, so the candidate date is
today; monthly with a null day-of-month targets today's day-of-month, clamped
to the candidate month's length. -/
theorem scheduling_c10 (p : Profile) (now : DateTime) (T : Time)
    (hen : p.report_schedule_enabled = true) (htm : p.report_time = some T) :
    (p.report_frequency = "weekly" → p.report_day_of_week = none →
      (computeNextReportAt p now).2 =
        some (if (⟨now.date, T⟩ : DateTime).key ≤ now.key
          then ⟨now.date.addDays 7, T⟩ else ⟨now.date, T⟩)) ∧
    (p.report_frequency = "monthly" → p.report_day_of_month = none →
      (computeNextReportAt p now).2 =
        some (if (monthCandidate now.date.day T now.date.year now.date.month).key ≤ now.key
          then monthCandidate now.date.day T
            (now.date.year + (if now.date.month = 12 then 1 else 0))
            (if now.date.month = 12 then 1 else now.date.month + 1)
          else monthCandidate now.date.day T now.date.year now.date.month)) := by
  constructor
  · intro hf hdow
    have hmain : (computeNextReportAt p now).2 = some (weeklyCandidate none T now) := by
      simp only [computeNextReportAt, hen, htm, hf, hdow]
      simp
    rw [hmain]
    have h0 : weeklyDaysAhead none now.date = 0 := by
      unfold weeklyDaysAhead
      dsimp only
      simp
    unfold weeklyCandidate
    dsimp only
    rw [h0]
    rfl
  · intro hf hdom
    have hmain : (computeNextReportAt p now).2 = some (monthlyCandidate none T now) := by
      simp only [computeNextReportAt, hen, htm, hf, hdom]
      simp
    rw [hmain]
    unfold monthlyCandidate
    dsimp only
    rfl

/-- Witness for C10: an enabled weekly schedule with no day-of-week, evaluated
on Monday 2024-03-04 at 10:00 with send time 09:00, targets today's weekday
and (already passed) lands 7 days later; an enabled monthly schedule with no
day-of-month, evaluated 2024-03-31 at 10:00 with send time 08:00, targets
day 31 and rolls to April 30 (clamped). -/
theorem scheduling_c10_witness :
    (computeNextReportAt
        { report_schedule_enabled := true, report_frequency := "weekly",
          report_time := some ⟨9, 0, 0⟩, report_day_of_week := none,
          report_day_of_month := none, report_recipient_email := none,
          report_range_days := 30, next_report_at := none,
          last_report_sent_at := none, user_email := none }
        ⟨⟨2024, 3, 4⟩, ⟨10, 0, 0⟩⟩).2 = some ⟨⟨2024, 3, 11⟩, ⟨9, 0, 0⟩⟩ ∧
    (computeNextReportAt
        { report_schedule_enabled := true, report_frequency := "monthly",
          report_time := some ⟨8, 0, 0⟩, report_day_of_week := none,
          report_day_of_month := none, report_recipient_email := none,
          report_range_days := 30, next_report_at := none,
          last_report_sent_at := none, user_email := none }
        ⟨⟨2024, 3, 31⟩, ⟨10, 0, 0⟩⟩).2 = some ⟨⟨2024, 4, 30⟩, ⟨8, 0, 0⟩⟩ :=
  ⟨((scheduling_c10 _ ⟨⟨2024, 3, 4⟩, ⟨10, 0, 0⟩⟩ ⟨9, 0, 0⟩ rfl rfl).1
      rfl rfl).trans (by decide),
   ((scheduling_c10 _ ⟨⟨2024, 3, 31⟩, ⟨10, 0, 0⟩⟩ ⟨8, 0, 0⟩ rfl rfl).2
      rfl rfl).trans (by decide)⟩

/-- C8 counterexample: calling the computation on a disabled profile whose
`next_report_at` holds a value clears that field, so the schedule state is not
the same after the call as before — the method is not mutation-free. -/
theorem scheduling_c8_counterexample :
    (computeNextReportAt
        { report_schedule_enabled := false, report_frequency := "daily",
          report_time := some ⟨8, 0, 0⟩, report_day_of_week := none,
          report_day_of_month := none, report_recipient_email := none,
          report_range_days := 30, next_report_at := some ⟨⟨2024, 3, 1⟩, ⟨8, 0, 0⟩⟩,
          last_report_sent_at := none, user_email := none }
        ⟨⟨2024, 3, 1⟩, ⟨9, 0, 0⟩⟩).1 ≠
      { report_schedule_enabled := false, report_frequency := "daily",
        report_time := some ⟨8, 0, 0⟩, report_day_of_week := none,
        report_day_of_month := none, report_recipient_email := none,
        report_range_days := 30, next_report_at := some ⟨⟨2024, 3, 1⟩, ⟨8, 0, 0⟩⟩,
        last_report_sent_at := none, user_email := none } := by
  decide

/-- C8 (amended): the computation is a deterministic function of the
configuration and `now`, and its only mutation is storing the returned value
in `next_report_at`; every other field, including `last_report_sent_at`, is
unchanged. -/
theorem scheduling_c8 (p : Profile) (now : DateTime) :
    (computeNextReportAt p now).1 =
      { p with next_report_at := (computeNextReportAt p now).2 } :=
  computeNext_fst p now

end EnsetHealth

namespace EnsetHealth

/-- C1 counterexample: a configuration with the unrecognised frequency
"yearly" (enabled, time 08:00, no day-of-month), evaluated at
2024-03-01 09:00, yields 2024-04-01 08:00 — the monthly `else` branch —
whereas the same configuration with frequency "daily" yields
2024-03-02 08:00; so the fallback is not Daily semantics. -/
theorem scheduling_c1_counterexample :
    (computeNextReportAt
        { report_schedule_enabled := true, report_frequency := "yearly",
          report_time := some ⟨8, 0, 0⟩, report_day_of_week := none,
          report_day_of_month := none, report_recipient_email := none,
          report_range_days := 30, next_report_at := none,
          last_report_sent_at := none, user_email := none }
        ⟨⟨2024, 3, 1⟩, ⟨9, 0, 0⟩⟩).2 = some ⟨⟨2024, 4, 1⟩, ⟨8, 0, 0⟩⟩ ∧
    (computeNextReportAt
        { report_schedule_enabled := true, report_frequency := "daily",
          report_time := some ⟨8, 0, 0⟩, report_day_of_week := none,
          report_day_of_month := none, report_recipient_email := none,
          report_range_days := 30, next_report_at := none,
          last_report_sent_at := none, user_email := none }
        ⟨⟨2024, 3, 1⟩, ⟨9, 0, 0⟩⟩).2 = some ⟨⟨2024, 3, 2⟩, ⟨8, 0, 0⟩⟩ ∧
    (computeNextReportAt
        { report_schedule_enabled := true, report_frequency := "yearly",
          report_time := some ⟨8, 0, 0⟩, report_day_of_week := none,
          report_day_of_month := none, report_recipient_email := none,
          report_range_days := 30, next_report_at := none,
          last_report_sent_at := none, user_email := none }
        ⟨⟨2024, 3, 1⟩, ⟨9, 0, 0⟩⟩).2 ≠
      (computeNextReportAt
        { report_schedule_enabled := true, report_frequency := "daily",
          report_time := some ⟨8, 0, 0⟩, report_day_of_week := none,
          report_day_of_month := none, report_recipient_email := none,
          report_range_days := 30, next_report_at := none,
          last_report_sent_at := none, user_email := none }
        ⟨⟨2024, 3, 1⟩, ⟨9, 0, 0⟩⟩).2 := by
  refine ⟨by decide, by decide, by decide⟩

/-- C1 (amended): for every configuration whose frequency is neither "daily"
nor "weekly" — in particular any unrecognised value — the next-instant
computation behaves exactly as it would with frequency "monthly": same
returned instant and same stored `next_report_at`. -/
theorem scheduling_c1 (p : Profile) (now : DateTime)
    (h1 : p.report_frequency ≠ "daily") (h2 : p.report_frequency ≠ "weekly") :
    (computeNextReportAt p now).2 =
      (computeNextReportAt { p with report_frequency := "monthly" } now).2 ∧
    (computeNextReportAt p now).1.next_report_at =
      (computeNextReportAt { p with report_frequency := "monthly" } now).1.next_report_at := by
  have hkey : (computeNextReportAt p now).2 =
      (computeNextReportAt { p with report_frequency := "monthly" } now).2 := by
    unfold computeNextReportAt
    dsimp only
    cases p.report_schedule_enabled <;> cases p.report_time <;> dsimp only
    rw [if_neg h1, if_neg h2,
      if_neg (show ("monthly" : String) ≠ "daily" by decide),
      if_neg (show ("monthly" : String) ≠ "weekly" by decide)]
  exact ⟨hkey, by rw [computeNext_fst_next, computeNext_fst_next, hkey]⟩

/-- Witness for C1 (amended): the "yearly" configuration of the
counterexample computes the same next instant as its "monthly" twin. -/
theorem scheduling_c1_witness :
    (computeNextReportAt
        { report_schedule_enabled := true, report_frequency := "yearly",
          report_time := some ⟨8, 0, 0⟩, report_day_of_week := none,
          report_day_of_month := none, report_recipient_email := none,
          report_range_days := 30, next_report_at := none,
          last_report_sent_at := none, user_email := none }
        ⟨⟨2024, 3, 1⟩, ⟨9, 0, 0⟩⟩).2 =
      (computeNextReportAt
        { report_schedule_enabled := true, report_frequency := "monthly",
          report_time := some ⟨8, 0, 0⟩, report_day_of_week := none,
          report_day_of_month := none, report_recipient_email := none,
          report_range_days := 30, next_report_at := none,
          last_report_sent_at := none, user_email := none }
        ⟨⟨2024, 3, 1⟩, ⟨9, 0, 0⟩⟩).2 :=
  (scheduling_c1
      { report_schedule_enabled := true, report_frequency := "yearly",
        report_time := some ⟨8, 0, 0⟩, report_day_of_week := none,
        report_day_of_month := none, report_recipient_email := none,
        report_range_days := 30, next_report_at := none,
        last_report_sent_at := none, user_email := none }
      ⟨⟨2024, 3, 1⟩, ⟨9, 0, 0⟩⟩ (by decide) (by decide)).1

/-- C6: over any store and any valid fixed `now`, each schedule is sent at
most once across two successive passes: pass one maps position `i` to the
per-schedule step's state, and the step's `sent` contributions over the two
passes total at most 1 — a schedule sent in the first pass has
`next_report_at` advanced strictly past `now`, so the second pass skips it. -/
theorem scheduling_c6 (d : Profile → Bool) (now : DateTime) (l : List Profile)
    (i : Nat) (p : Profile) (hd : now.date.Valid) (ht : now.time.Valid)
    (hp : l[i]? = some p) :
    (runOnce d false now l).1[i]? = some (stepProfile d false now p).1 ∧
    (stepProfile d false now p).2.1 +
      (stepProfile d false now (stepProfile d false now p).1).2.1 ≤ 1 :=
  ⟨runOnce_fst_getElem d false now l i p hp, stepProfile_twice d hd ht p⟩

/-- Witness for C6: a due daily schedule with an always-succeeding delivery,
stepped twice at the same `now`, is sent at most once in total. -/
theorem scheduling_c6_witness :
    (stepProfile (fun _ => true) false ⟨⟨2024, 3, 1⟩, ⟨9, 0, 0⟩⟩
        { report_schedule_enabled := true, report_frequency := "daily",
          report_time := some ⟨8, 0, 0⟩, report_day_of_week := none,
          report_day_of_month := none, report_recipient_email := some "user@example.com",
          report_range_days := 30, next_report_at := some ⟨⟨2024, 3, 1⟩, ⟨8, 0, 0⟩⟩,
          last_report_sent_at := none, user_email := none }).2.1 +
      (stepProfile (fun _ => true) false ⟨⟨2024, 3, 1⟩, ⟨9, 0, 0⟩⟩
        (stepProfile (fun _ => true) false ⟨⟨2024, 3, 1⟩, ⟨9, 0, 0⟩⟩
          { report_schedule_enabled := true, report_frequency := "daily",
            report_time := some ⟨8, 0, 0⟩, report_day_of_week := none,
            report_day_of_month := none, report_recipient_email := some "user@example.com",
            report_range_days := 30, next_report_at := some ⟨⟨2024, 3, 1⟩, ⟨8, 0, 0⟩⟩,
            last_report_sent_at := none, user_email := none }).1).2.1 ≤ 1 :=
  (scheduling_c6 (fun _ => true) ⟨⟨2024, 3, 1⟩, ⟨9, 0, 0⟩⟩
      [{ report_schedule_enabled := true, report_frequency := "daily",
         report_time := some ⟨8, 0, 0⟩, report_day_of_week := none,
         report_day_of_month := none, report_recipient_email := some "user@example.com",
         report_range_days := 30, next_report_at := some ⟨⟨2024, 3, 1⟩, ⟨8, 0, 0⟩⟩,
         last_report_sent_at := none, user_email := none }] 0 _
      (by decide) (by decide) rfl).2

/-- C7: a due schedule whose delivery raises is left with `last_report_sent_at`
and `next_report_at` unchanged, contributes one skip and no send, is treated
identically when stepped again at the same `now` (still due), and within a
whole pass its stored state is unchanged while every other schedule is still
processed (the pass is total, so no delivery error escapes to the caller). -/
theorem scheduling_c7 (d : Profile → Bool) (now : DateTime) (p : Profile)
    (t : DateTime) (hen : p.report_schedule_enabled = true)
    (hnext : p.next_report_at = some t) (hdue : t.key ≤ now.key)
    (hrec : resolveRecipient p ≠ none) (hfail : d p = false) :
    stepProfile d false now p = (p, 0, 1) ∧
    stepProfile d false now (stepProfile d false now p).1 = (p, 0, 1) ∧
    ∀ (l : List Profile) (i : Nat), l[i]? = some p →
      (runOnce d false now l).1[i]? = some p := by
  obtain ⟨e, he⟩ := Option.ne_none_iff_exists'.mp hrec
  have hnl : ¬ now.key < t.key := by omega
  have h1 : stepProfile d false now p = (p, 0, 1) := by
    simp [stepProfile, hen, hnext, he, hnl, hfail]
  refine ⟨h1, ?_, ?_⟩
  · rw [h1]
    exact h1
  · intro l i hp
    rw [runOnce_fst_getElem d false now l i p hp, h1]

/-- Witness for C7: a due daily schedule whose delivery always raises is
returned unchanged with a single skip. -/
theorem scheduling_c7_witness :
    stepProfile (fun _ => false) false ⟨⟨2024, 3, 1⟩, ⟨9, 0, 0⟩⟩
        { report_schedule_enabled := true, report_frequency := "daily",
          report_time := some ⟨8, 0, 0⟩, report_day_of_week := none,
          report_day_of_month := none, report_recipient_email := some "user@example.com",
          report_range_days := 30, next_report_at := some ⟨⟨2024, 3, 1⟩, ⟨8, 0, 0⟩⟩,
          last_report_sent_at := none, user_email := none } =
      ({ report_schedule_enabled := true, report_frequency := "daily",
         report_time := some ⟨8, 0, 0⟩, report_day_of_week := none,
         report_day_of_month := none, report_recipient_email := some "user@example.com",
         report_range_days := 30, next_report_at := some ⟨⟨2024, 3, 1⟩, ⟨8, 0, 0⟩⟩,
         last_report_sent_at := none, user_email := none }, 0, 1) :=
  (scheduling_c7 (fun _ => false) ⟨⟨2024, 3, 1⟩, ⟨9, 0, 0⟩⟩ _
      ⟨⟨2024, 3, 1⟩, ⟨8, 0, 0⟩⟩ rfl rfl (by decide) (by decide) rfl).1

/-- C9: every submission with `report_schedule_enabled = false` that the
update operation accepts leaves the profile with `next_report_at`,
`report_day_of_week` and `report_day_of_month` all null, regardless of the
other submitted values and of the prior state. -/
theorem scheduling_c9 (now : DateTime) (userEmail : Option String) (p : Profile)
    (s : SubmittedSchedule) (p2 : Profile)
    (hen : s.report_schedule_enabled = false)
    (h : updateSchedule now userEmail p s = some p2) :
    p2.next_report_at = none ∧ p2.report_day_of_week = none ∧
    p2.report_day_of_month = none := by
  simp only [updateSchedule, cleanSchedule, hen] at h
  simp at h
  rw [computeNext_fst] at h
  obtain ⟨rfl⟩ := h
  constructor
  · simp [computeNext_none_iff, hen]
  · constructor <;> rfl

/-- Witness for C9: disabling a previously enabled weekly schedule (which had
a day-of-week, a pending `next_report_at`, and a day-of-month submitted in the
same request) clears all three derived fields. -/
theorem scheduling_c9_witness :
    ({ report_schedule_enabled := false, report_frequency := "weekly",
       report_time := some ⟨8, 0, 0⟩, report_day_of_week := none,
       report_day_of_month := none, report_recipient_email := none,
       report_range_days := 30, next_report_at := none,
       last_report_sent_at := none, user_email := none } : Profile).next_report_at = none ∧
    ({ report_schedule_enabled := false, report_frequency := "weekly",
       report_time := some ⟨8, 0, 0⟩, report_day_of_week := none,
       report_day_of_month := none, report_recipient_email := none,
       report_range_days := 30, next_report_at := none,
       last_report_sent_at := none, user_email := none } : Profile).report_day_of_week = none ∧
    ({ report_schedule_enabled := false, report_frequency := "weekly",
       report_time := some ⟨8, 0, 0⟩, report_day_of_week := none,
       report_day_of_month := none, report_recipient_email := none,
       report_range_days := 30, next_report_at := none,
       last_report_sent_at := none, user_email := none } : Profile).report_day_of_month = none :=
  scheduling_c9 ⟨⟨2024, 3, 1⟩, ⟨9, 0, 0⟩⟩ none
    { report_schedule_enabled := true, report_frequency := "weekly",
      report_time := some ⟨8, 0, 0⟩, report_day_of_week := some "monday",
      report_day_of_month := none, report_recipient_email := some "user@example.com",
      report_range_days := 30, next_report_at := some ⟨⟨2024, 3, 4⟩, ⟨8, 0, 0⟩⟩,
      last_report_sent_at := none, user_email := none }
    { report_schedule_enabled := false, report_recipient_email := none,
      report_frequency := "weekly", report_day_of_week := some "monday",
      report_day_of_month := some 10, report_time := some ⟨8, 0, 0⟩,
      report_range_days := some 30 }
    { report_schedule_enabled := false, report_frequency := "weekly",
      report_time := some ⟨8, 0, 0⟩, report_day_of_week := none,
      report_day_of_month := none, report_recipient_email := none,
      report_range_days := 30, next_report_at := none,
      last_report_sent_at := none, user_email := none }
    rfl (by decide)

end EnsetHealth
